import Mathlib

/-!
Verification of the zta-testbed orchestration core against its specification.

The definitions below are a shallow embedding of the Python sources:
  * `src/agents/airline-agent/agent.py`   (AirlineAgent: MCP protocol client and keyword dispatch)
  * `src/agents/car-rental-agent/agent.py` (CarRentalAgent)
  * `src/agents-old/travel-supervisor/supervisor.py` (SupervisorAgent routing loop)
  * `src/agents/supervisor-service/supervisor_service.py` (process_query loop)
  * `src/agents/travel-planner/travel_planner.py` (classify_intent)
  * `src/agents/supervisor/supervisor.py` (TravelSupervisor._classify_intent_keywords)

External collaborators (the tool host reached over HTTP, the reasoning model,
remote specialist services) are modelled as explicit oracle parameters, and the
network is modelled by transport outcomes.  Mutable object state (the MCP
session id) is threaded explicitly.  Python string operations are re-implemented
over `List Char` so that every definition evaluates by kernel reduction.
-/

/-! ## Python string semantics -/

/-- Python `str.lower()` (ASCII case folding, which covers every string the
agents compare against). -/
def pyLower (s : String) : String := ⟨s.data.map Char.toLower⟩

/-- Prefix test on character lists. -/
def listIsPref : List Char → List Char → Bool
  | [], _ => true
  | _ :: _, [] => false
  | a :: as, b :: bs => a == b && listIsPref as bs

/-- Substring occurrence test on character lists. -/
def listContainsSub (pat : List Char) : List Char → Bool
  | [] => listIsPref pat []
  | c :: cs => listIsPref pat (c :: cs) || listContainsSub pat cs

/-- Python `pat in s` for strings (substring containment; the empty pattern is
contained in every string). -/
def strContains (s pat : String) : Bool := listContainsSub pat.data s.data

/-- Python `s.startswith(pat)`. -/
def pyStartsWith (s pat : String) : Bool := listIsPref pat.data s.data

/-- Split on a newline character, keeping empty pieces, as Python
`s.split("\n")` does. -/
def splitLines : List Char → List (List Char)
  | [] => [[]]
  | c :: cs =>
    if c == '\n' then [] :: splitLines cs
    else
      match splitLines cs with
      | [] => [[c]]
      | l :: ls => (c :: l) :: ls

/-- Python `s.split("\n")`. -/
def pySplitNl (s : String) : List String := (splitLines s.data).map (fun l => ⟨l⟩)

/-- Whitespace characters removed by Python `str.strip()`. -/
def isPyWs (c : Char) : Bool :=
  c == ' ' || c == '\t' || c == '\n' || c == '\r' || c == '\x0b' || c == '\x0c'

/-- Python `s.strip()`. -/
def pyStrip (s : String) : String :=
  ⟨((s.data.dropWhile isPyWs).reverse.dropWhile isPyWs).reverse⟩

/-- Python `s[n:]`. -/
def pyDrop (s : String) (n : Nat) : String := ⟨s.data.drop n⟩

/-- Python `s[:n]`. -/
def pyTake (s : String) (n : Nat) : String := ⟨s.data.take n⟩

/-- Python `len(s)` (code points; identical to byte length on the ASCII data
the services exchange). -/
def pyLen (s : String) : Nat := s.data.length

/-! ## JSON values

The envelopes travelling between agent and tool host are JSON.  Numbers are
modelled as integers: every numeric payload the services exchange (ids,
status codes, counts) is integral. -/

inductive Json where
  | null
  | bool (b : Bool)
  | num (n : Int)
  | str (s : String)
  | arr (elems : List Json)
  | obj (fields : List (String × Json))

/-- Lookup of a key in a decoded JSON object; with duplicate keys Python's
`json.loads` keeps the last occurrence. -/
def Json.getKey? (j : Json) (key : String) : Option Json :=
  match j with
  | .obj fs => ((fs.filter (fun p => p.1 == key)).getLast?).map (fun p => p.2)
  | _ => none

/-- Python equality of a JSON value with a given string (`==` against a `str`
is only true for an equal `str`). -/
def Json.eqStr (key : String) : Json → Bool
  | .str s => s == key
  | _ => false

/-- Python type name of a decoded JSON value, as it appears in runtime error
messages. -/
def pyTypeName : Json → String
  | .null => "NoneType"
  | .bool _ => "bool"
  | .num _ => "int"
  | .str _ => "str"
  | .arr _ => "list"
  | .obj _ => "dict"

mutual

/-- Python `repr` of a decoded JSON value. -/
def pyRepr : Json → String
  | .null => "None"
  | .bool true => "True"
  | .bool false => "False"
  | .num n => toString n
  | .str s => "\x27" ++ s ++ "\x27"
  | .arr xs => "[" ++ pyReprItems xs ++ "]"
  | .obj fs => "\x7b" ++ pyReprPairs fs ++ "\x7d"

/-- Comma-separated reprs of list items. -/
def pyReprItems : List Json → String
  | [] => ""
  | [x] => pyRepr x
  | x :: y :: xs => pyRepr x ++ ", " ++ pyReprItems (y :: xs)

/-- Comma-separated reprs of dict entries. -/
def pyReprPairs : List (String × Json) → String
  | [] => ""
  | [(k, v)] => "\x27" ++ k ++ "\x27: " ++ pyRepr v
  | (k, v) :: p :: fs => "\x27" ++ k ++ "\x27: " ++ pyRepr v ++ ", " ++ pyReprPairs (p :: fs)

end

/-- Python `str()` of a decoded JSON value. -/
def pyStr (j : Json) : String :=
  match j with
  | .str s => s
  | _ => pyRepr j

/-- Python truthiness of a decoded JSON value. -/
def jsonTruthy : Json → Bool
  | .null => false
  | .bool b => b
  | .num n => n != 0
  | .str s => !s.data.isEmpty
  | .arr xs => !xs.isEmpty
  | .obj fs => !fs.isEmpty

/-- Python `key in value` (raises `TypeError` on non-iterable values; an
exception is an `Except.error` carrying the interpreter's message). -/
def pyIn (key : String) : Json → Except String Bool
  | .obj fs => .ok (fs.any (fun p => p.1 == key))
  | .arr xs => .ok (xs.any (Json.eqStr key))
  | .str s => .ok (strContains s key)
  | j => .error ("argument of type \x27" ++ pyTypeName j ++ "\x27 is not iterable")

/-- Python `value[key]` subscription (raises on non-dicts and missing keys). -/
def pySubscript (j : Json) (key : String) : Except String Json :=
  match j with
  | .obj _ =>
    match j.getKey? key with
    | some v => .ok v
    | none => .error ("\x27" ++ key ++ "\x27")
  | .arr _ => .error "list indices must be integers or slices, not str"
  | .str _ => .error "string indices must be integers"
  | j => .error ("\x27" ++ pyTypeName j ++ "\x27 object is not subscriptable")

/-- Python `value.get(key, default)` (raises `AttributeError` on non-dicts). -/
def pyDictGet (j : Json) (key : String) (dflt : Json) : Except String Json :=
  match j with
  | .obj _ =>
    match j.getKey? key with
    | some v => .ok v
    | none => .ok dflt
  | j => .error ("\x27" ++ pyTypeName j ++ "\x27 object has no attribute \x27get\x27")

/-- Python `d.get(key, default)` on a plain dict value. -/
def dictGet (fs : List (String × Json)) (key : String) (dflt : Json) : Json :=
  match ((fs.filter (fun p => p.1 == key)).getLast?).map (fun p => p.2) with
  | some v => v
  | none => dflt

/-! ## A `json.loads` model

A fuel-indexed recursive-descent parser for the JSON fragment the services
exchange (null, booleans, integers, strings with simple escapes, arrays,
objects).  `json.loads` rejects trailing garbage, and so does `jsonParse?`. -/

/-- Skip JSON whitespace. -/
def skipWs : List Char → List Char
  | [] => []
  | c :: cs => if c == ' ' || c == '\t' || c == '\n' || c == '\r' then skipWs cs else c :: cs

/-- Parse the remainder of a string literal (after the opening quote). -/
def parseStrBody : List Char → Option (List Char × List Char)
  | [] => none
  | '"' :: cs => some ([], cs)
  | '\\' :: e :: cs =>
    let dec : Option Char :=
      if e == '"' then some '"'
      else if e == '\\' then some '\\'
      else if e == '/' then some '/'
      else if e == 'n' then some '\n'
      else if e == 't' then some '\t'
      else if e == 'r' then some '\r'
      else none
    match dec with
    | some d => (parseStrBody cs).map (fun r => (d :: r.1, r.2))
    | none => none
  | '\\' :: [] => none
  | c :: cs => (parseStrBody cs).map (fun r => (c :: r.1, r.2))

/-- Take a maximal run of decimal digits. -/
def takeDigits : List Char → (List Char × List Char)
  | [] => ([], [])
  | c :: cs =>
    if c.isDigit then
      match takeDigits cs with
      | (ds, r) => (c :: ds, r)
    else ([], c :: cs)

/-- Digits to a natural number. -/
def digitsToNat (ds : List Char) : Nat := ds.foldl (fun a c => a * 10 + (c.toNat - 48)) 0

mutual

/-- Parse one JSON value, returning it with the unconsumed remainder. -/
def parseVal : Nat → List Char → Option (Json × List Char)
  | 0, _ => none
  | fuel + 1, input =>
    match skipWs input with
    | 'n' :: 'u' :: 'l' :: 'l' :: r => some (.null, r)
    | 't' :: 'r' :: 'u' :: 'e' :: r => some (.bool true, r)
    | 'f' :: 'a' :: 'l' :: 's' :: 'e' :: r => some (.bool false, r)
    | '"' :: r => (parseStrBody r).map (fun p => (.str ⟨p.1⟩, p.2))
    | '-' :: r =>
      match takeDigits r with
      | ([], _) => none
      | (ds, rest) => some (.num (-(digitsToNat ds : Int)), rest)
    | '[' :: r =>
      (match skipWs r with
       | ']' :: rest => some (.arr [], rest)
       | _ => (parseItems fuel r).map (fun p => (.arr p.1, p.2)))
    | '\x7b' :: r =>
      (match skipWs r with
       | '\x7d' :: rest => some (.obj [], rest)
       | _ => (parsePairs fuel r).map (fun p => (.obj p.1, p.2)))
    | c :: r =>
      if c.isDigit then
        match takeDigits (c :: r) with
        | (ds, rest) => some (.num (digitsToNat ds : Int), rest)
      else none
    | [] => none

/-- Parse comma-separated array items up to the closing bracket. -/
def parseItems : Nat → List Char → Option (List Json × List Char)
  | 0, _ => none
  | fuel + 1, input =>
    match parseVal fuel input with
    | none => none
    | some (v, rest) =>
      match skipWs rest with
      | ',' :: r => (parseItems fuel r).map (fun p => (v :: p.1, p.2))
      | ']' :: r => some ([v], r)
      | _ => none

/-- Parse comma-separated object members up to the closing brace. -/
def parsePairs : Nat → List Char → Option (List (String × Json) × List Char)
  | 0, _ => none
  | fuel + 1, input =>
    match skipWs input with
    | '"' :: r =>
      match parseStrBody r with
      | none => none
      | some (k, rest) =>
        match skipWs rest with
        | ':' :: r2 =>
          match parseVal fuel r2 with
          | none => none
          | some (v, rest2) =>
            match skipWs rest2 with
            | ',' :: r3 => (parsePairs fuel r3).map (fun p => ((⟨k⟩, v) :: p.1, p.2))
            | '\x7d' :: r3 => some ([(⟨k⟩, v)], r3)
            | _ => none
        | _ => none
    | _ => none

end

/-- Python `json.loads`: `some` on a well-formed document with nothing but
whitespace after it, `none` when a `json.JSONDecodeError` would be raised. -/
def jsonParse? (s : String) : Option Json :=
  match parseVal (s.data.length + 1) s.data with
  | some (v, rest) => if (skipWs rest).isEmpty then some v else none
  | none => none

/-! ## Protocol client (`_init_mcp_session` / `call_tool`)

The HTTP layer is modelled by transport outcomes: a response (status code,
headers, body text) or a raised exception with its message.  The tool host is
an oracle giving the outcome of the `initialize` POST and, as a function of
the attached `mcp-session-id` header, the outcome of a `tools/call` POST. -/

structure HttpResponse where
  status : Nat
  headers : List (String × String)
  body : String

inductive TransportOutcome where
  | ok (resp : HttpResponse)
  | exn (msg : String)

/-- A request sent to the tool host, as recorded for the round-trip trace. -/
inductive McpRequest where
  | initRpc
  | toolsCall (name : String) (arguments : List (String × Json)) (sessionHeader : Option String)

structure HostBehavior where
  initResp : TransportOutcome
  callResp : Option String → TransportOutcome

/-- Python `response.headers.get(k)` (first match, case kept as sent). -/
def headerGet (headers : List (String × String)) (key : String) : Option String :=
  ((headers.filter (fun p => p.1 == key)).head?).map (fun p => p.2)

/-- Python truthiness of the optional session id (`None` and `""` are falsy). -/
def sessionTruthy : Option String → Bool
  | none => false
  | some s => !s.data.isEmpty

/-- AirlineAgent._init_mcp_session (agent.py lines 163 to 199; the car-rental
and hotel agents repeat it verbatim): POST `initialize`, then store the
`mcp-session-id` response header; the surrounding `try` swallows transport
exceptions, leaving the stored session id unchanged.  Returns the new session
id and the round trip attempted. -/
def init_mcp_session (host : HostBehavior) (sess : Option String) :
    Option String × List McpRequest :=
  match host.initResp with
  | .ok resp => (headerGet resp.headers "mcp-session-id", [.initRpc])
  | .exn _ => (sess, [.initRpc])

/-- Scan of a server-sent-event body (`for line in text.split("\n")` in
call_tool): the FIRST `data:` line whose payload is non-empty after stripping
is parsed; a parse failure returns the invalid-JSON error (message prefix
`invalidMsg`, which is the one point where the otherwise identical airline and
car-rental/hotel copies differ); decoded objects are unwrapped as `result`,
else `error.message`, else returned whole; with no such line the scan falls
through to the no-data error.  `Except.error` is an exception propagating to
call_tool's outer handler. -/
def sseScan (invalidMsg : String) : List String → Except String Json
  | [] => .ok (Json.obj [("error", Json.str "No data in SSE response")])
  | line :: rest =>
    if pyStartsWith line "data:" then
      let jsonData := pyStrip (pyDrop line 5)
      if jsonData.data.isEmpty then sseScan invalidMsg rest
      else
        match jsonParse? jsonData with
        | some result =>
          match pyIn "result" result with
          | .error e => .error e
          | .ok true => pySubscript result "result"
          | .ok false =>
            match pyIn "error" result with
            | .error e => .error e
            | .ok true =>
              match pySubscript result "error" with
              | .error e => .error e
              | .ok errVal =>
                match pyDictGet errVal "message" (Json.str (pyStr errVal)) with
                | .error e => .error e
                | .ok m => .ok (Json.obj [("error", m)])
            | .ok false => .ok result
        | none => .ok (Json.obj [("error", Json.str (invalidMsg ++ pyTake jsonData 100))])
    else sseScan invalidMsg rest

/-- Representative text of the `json.JSONDecodeError` raised by
`response.json()` on a non-JSON body (no claim reads this message). -/
def jsonDecodeErrorMsg : String := "Expecting value: line 1 column 1 (char 0)"

/-- Decoding of a 200 response body in call_tool (agent.py lines 273 to 297):
an event-stream body goes through `sseScan`; otherwise the whole body is
parsed and `result` extracted via `.get("result", result)`. -/
def decode200 (invalidMsg : String) (text : String) : Except String Json :=
  if pyStartsWith text "event:" then
    sseScan invalidMsg (pySplitNl text)
  else
    match jsonParse? text with
    | some result => pyDictGet result "result" result
    | none => .error jsonDecodeErrorMsg

/-- Result of one `call_tool` invocation: the returned value, the session id
stored afterwards, and the round trips attempted. -/
structure ToolCallOutcome where
  value : Json
  session : Option String
  trace : List McpRequest

/-- AirlineAgent.call_tool (agent.py lines 235 to 307; `invalidMsg` is
`"Invalid JSON response: "` there and `"Invalid JSON: "` in the car-rental and
hotel copies).  A falsy session id triggers `_init_mcp_session` first; the
session header is attached only when truthy; a 200 body is decoded by
`decode200` (a decoding exception reaches the outer handler and becomes an
error dict); a 400 status clears the stored session id; every other
non-success path leaves it untouched. -/
def call_tool (invalidMsg : String) (host : HostBehavior) (sess : Option String)
    (toolName : String) (arguments : List (String × Json)) : ToolCallOutcome :=
  let s1 := if sessionTruthy sess then (sess, ([] : List McpRequest))
            else init_mcp_session host sess
  let hdr := if sessionTruthy s1.1 then s1.1 else none
  let vs : Json × Option String :=
    match host.callResp hdr with
    | .exn msg => (Json.obj [("error", Json.str msg)], s1.1)
    | .ok resp =>
      if resp.status == 200 then
        match decode200 invalidMsg resp.body with
        | .ok v => (v, s1.1)
        | .error e => (Json.obj [("error", Json.str e)], s1.1)
      else
        (Json.obj [("error", Json.str ("Tool call failed: " ++ toString resp.status))],
          if resp.status == 400 then none else s1.1)
  ⟨vs.1, vs.2, s1.2 ++ [McpRequest.toolsCall toolName arguments hdr]⟩

/-- Decoder following the specification text instead of the source: "if it
begins with an event-stream marker, scan line-by-line for the LAST `data:`
line and parse it as JSON; otherwise parse the whole body as JSON", then
extract `result`.  Used only to compare the spec's words with `decode200`. -/
def specLastLineDecode (text : String) : Option Json :=
  if pyStartsWith text "event:" then
    match ((pySplitNl text).filter (fun u => pyStartsWith u "data:")).getLast? with
    | some l =>
      match jsonParse? (pyStrip (pyDrop l 5)) with
      | some v =>
        match v.getKey? "result" with
        | some r => some r
        | none => some v
      | none => none
    | none => none
  else
    match jsonParse? text with
    | some v =>
      match v.getKey? "result" with
      | some r => some r
      | none => some v
    | none => none

/-! ## Specialist agents

`AgentResponse` mirrors the pydantic model (agent.py lines 58 to 64); field
defaults (`tools_called=[]`, `error=None`) apply at every construction site
that omits them, exactly as pydantic does.  The reasoning model is an oracle
`LlmFn` (message and context to response text); `llm = none` models the
no-API-key configuration.  A `process_request` outcome carries the response,
the session id afterwards, the tool names passed to `call_tool` in order, and
all round trips attempted against the tool host. -/

structure ToolDefinition where
  name : String
  description : String
  parameters : List (String × String)

structure AgentResponse where
  success : Bool
  message : String
  data : Option (List (String × Json))
  tools_called : List String
  error : Option String

def LlmFn : Type := String → Option (List (String × Json)) → String

structure AgentProcOutcome where
  response : AgentResponse
  session : Option String
  calls : List String
  trace : List McpRequest

/-- Message of the `AttributeError` raised by `None.get(...)`, the one
exception the embedded request paths can raise (a request may carry
`context: null`, which pydantic stores as `None`). -/
def noneGetError : String := "\x27NoneType\x27 object has no attribute \x27get\x27"

/-- AIRLINE_TOOLS (airline-agent/agent.py lines 70 to 114). -/
def AIRLINE_TOOLS : List ToolDefinition :=
  [⟨"list_airports", "List all available airports", []⟩,
   ⟨"search_flights", "Search for flights between airports",
     [("origin", "Origin airport code (e.g., JFK)"),
      ("destination", "Destination airport code (e.g., LAX)"),
      ("date", "Travel date (YYYY-MM-DD format, optional)")]⟩,
   ⟨"get_flight_details", "Get detailed information about a specific flight",
     [("flight_id", "The flight ID")]⟩,
   ⟨"book_flight", "Book a flight for passengers",
     [("flight_id", "The flight ID to book"), ("passengers", "List of passenger names")]⟩,
   ⟨"get_booking", "Retrieve booking details by confirmation code",
     [("confirmation_code", "The booking confirmation code")]⟩,
   ⟨"cancel_booking", "Cancel an existing booking",
     [("confirmation_code", "The booking confirmation code to cancel")]⟩]

/-- Branches of the `if`/`elif` keyword dispatch in
AirlineAgent.process_request (agent.py lines 318 to 427), in source order. -/
inductive AirlineBranch where
  | airports
  | searchFlights
  | bookFlight
  | cancelBooking
  | bookingInfo
  | flightDetail
  | fallthrough

/-- The keyword conditions of AirlineAgent.process_request, applied to the
lowercased message, first match wins. -/
def airline_route (ml : String) : AirlineBranch :=
  if strContains ml "airport" &&
      (strContains ml "list" || strContains ml "available" || strContains ml "show") then
    .airports
  else if strContains ml "search" && strContains ml "flight" then .searchFlights
  else if strContains ml "book" && strContains ml "flight" then .bookFlight
  else if strContains ml "cancel" then .cancelBooking
  else if strContains ml "booking" || strContains ml "reservation" then .bookingInfo
  else if strContains ml "flight" && strContains ml "detail" then .flightDetail
  else .fallthrough

/-- Outcome when a branch's first `context.get` raises on a `None` context:
the enclosing `except` returns a failure response (tools_called is `[]` at
every raise site, since each append is followed by an immediate return). -/
def airline_exc_outcome (sess : Option String) : AgentProcOutcome :=
  ⟨⟨false, "An error occurred while processing your request", none, [], some noneGetError⟩,
    sess, [], []⟩

/-- Code after the dispatch chain (agent.py lines 428 to 443): delegate to the
LLM when configured, else the capability-summary fallback response (which the
source builds without passing `tools_called`, so the field defaults to `[]`). -/
def airline_fallthrough (llm : Option LlmFn) (sess : Option String) (message : String)
    (context : Option (List (String × Json))) : AgentProcOutcome :=
  match llm with
  | some f => ⟨⟨true, f message context, none, [], none⟩, sess, [], []⟩
  | none =>
    ⟨⟨true, "I\x27m the Airline Agent. I can help with: listing airports, searching flights, booking flights, and managing reservations. Please be more specific about what you need.",
      some [("available_tools", Json.arr (AIRLINE_TOOLS.map (fun t => Json.str t.name)))],
      [], none⟩, sess, [], []⟩

/-- AirlineAgent.process_request (agent.py lines 309 to 452). -/
def airline_process_request (host : HostBehavior) (llm : Option LlmFn) (sess : Option String)
    (message : String) (context : Option (List (String × Json))) : AgentProcOutcome :=
  let ml := pyLower message
  match airline_route ml with
  | .airports =>
    let out := call_tool "Invalid JSON response: " host sess "list_airports" []
    ⟨⟨true, "Here are the available airports", some [("airports", out.value)],
      ["list_airports"], none⟩, out.session, ["list_airports"], out.trace⟩
  | .searchFlights =>
    match context with
    | none => airline_exc_outcome sess
    | some ctx =>
      let origin := dictGet ctx "origin" (Json.str "JFK")
      let destination := dictGet ctx "destination" (Json.str "LAX")
      let dd := dictGet ctx "departure_date" Json.null
      let departure_date := if jsonTruthy dd then dd else dictGet ctx "date" (Json.str "2026-02-15")
      let passengers := dictGet ctx "passengers" (Json.num 1)
      let cabin_class := dictGet ctx "cabin_class" (Json.str "economy")
      let args := [("origin", origin), ("destination", destination),
                   ("departure_date", departure_date), ("passengers", passengers),
                   ("cabin_class", cabin_class)]
      let out := call_tool "Invalid JSON response: " host sess "search_flights" args
      ⟨⟨true, "Found flights from " ++ pyStr origin ++ " to " ++ pyStr destination,
        some [("flights", out.value)], ["search_flights"], none⟩,
        out.session, ["search_flights"], out.trace⟩
  | .bookFlight =>
    match context with
    | none => airline_exc_outcome sess
    | some ctx =>
      let flight_id := dictGet ctx "flight_id" Json.null
      let passengers := dictGet ctx "passengers" (Json.arr [Json.str "Guest"])
      if !jsonTruthy flight_id then
        ⟨⟨false, "Please provide a flight_id to book", none, [], some "missing_flight_id"⟩,
          sess, [], []⟩
      else
        let out := call_tool "Invalid JSON response: " host sess "book_flight"
          [("flight_id", flight_id), ("passengers", passengers)]
        ⟨⟨true, "Flight booked successfully", some [("booking", out.value)],
          ["book_flight"], none⟩, out.session, ["book_flight"], out.trace⟩
  | .cancelBooking =>
    match context with
    | none => airline_exc_outcome sess
    | some ctx =>
      let confirmation_code := dictGet ctx "confirmation_code" Json.null
      if !jsonTruthy confirmation_code then
        ⟨⟨false, "Please provide a confirmation_code to cancel", none, [],
          some "missing_confirmation_code"⟩, sess, [], []⟩
      else
        let out := call_tool "Invalid JSON response: " host sess "cancel_booking"
          [("confirmation_code", confirmation_code)]
        ⟨⟨true, "Booking cancelled", some [("result", out.value)],
          ["cancel_booking"], none⟩, out.session, ["cancel_booking"], out.trace⟩
  | .bookingInfo =>
    match context with
    | none => airline_exc_outcome sess
    | some ctx =>
      let confirmation_code := dictGet ctx "confirmation_code" Json.null
      if jsonTruthy confirmation_code then
        let out := call_tool "Invalid JSON response: " host sess "get_booking"
          [("confirmation_code", confirmation_code)]
        ⟨⟨true, "Booking details retrieved", some [("booking", out.value)],
          ["get_booking"], none⟩, out.session, ["get_booking"], out.trace⟩
      else airline_fallthrough llm sess message context
  | .flightDetail =>
    match context with
    | none => airline_exc_outcome sess
    | some ctx =>
      let flight_id := dictGet ctx "flight_id" Json.null
      if jsonTruthy flight_id then
        let out := call_tool "Invalid JSON response: " host sess "get_flight_details"
          [("flight_id", flight_id)]
        ⟨⟨true, "Flight details retrieved", some [("flight", out.value)],
          ["get_flight_details"], none⟩, out.session, ["get_flight_details"], out.trace⟩
      else airline_fallthrough llm sess message context
  | .fallthrough => airline_fallthrough llm sess message context

/-- The airline `/invoke` handler (agent.py lines 543 to 566): it forwards to
`process_request` and converts a raised exception into a failure response;
the embedded `process_request` is total, so the handler's `except` branch is
unreachable and the handler returns the `process_request` value (metrics
counters aside). -/
def airline_invoke (host : HostBehavior) (llm : Option LlmFn) (sess : Option String)
    (message : String) (context : Option (List (String × Json))) : AgentProcOutcome :=
  airline_process_request host llm sess message context

/-- CAR_RENTAL_TOOLS (car-rental-agent/agent.py lines 55 to 64). -/
def CAR_RENTAL_TOOLS : List ToolDefinition :=
  [⟨"list_locations", "List available rental locations", []⟩,
   ⟨"get_vehicle_categories", "Get available vehicle categories", []⟩,
   ⟨"search_vehicles", "Search for available vehicles",
     [("location_id", "Location ID"), ("pickup_date", "Pickup date"),
      ("return_date", "Return date"), ("category", "Vehicle category")]⟩,
   ⟨"get_vehicle_details", "Get detailed information about a vehicle",
     [("vehicle_id", "Vehicle ID")]⟩,
   ⟨"book_vehicle", "Book a rental vehicle",
     [("vehicle_id", "Vehicle ID"), ("pickup_date", "Pickup date"),
      ("return_date", "Return date"), ("driver_name", "Driver name")]⟩,
   ⟨"get_rental", "Get rental details", [("rental_id", "Rental ID")]⟩,
   ⟨"modify_rental", "Modify a rental booking",
     [("rental_id", "Rental ID"), ("new_return_date", "New return date")]⟩,
   ⟨"cancel_rental", "Cancel a rental booking", [("rental_id", "Rental ID")]⟩]

/-- Branches of the keyword dispatch in CarRentalAgent.process_request
(car-rental-agent/agent.py lines 200 to 270), in source order. -/
inductive CarBranch where
  | locations
  | categories
  | searchVehicles
  | bookVehicle
  | cancelRental
  | modifyRental
  | details
  | defaultList

/-- The keyword conditions of CarRentalAgent.process_request. -/
def car_route (ml : String) : CarBranch :=
  if strContains ml "location" && (strContains ml "list" || strContains ml "available") then
    .locations
  else if strContains ml "categor" then .categories
  else if strContains ml "search" || strContains ml "find" ||
      (strContains ml "car" && strContains ml "rent") then .searchVehicles
  else if strContains ml "book" || strContains ml "reserve" then .bookVehicle
  else if strContains ml "cancel" then .cancelRental
  else if strContains ml "modify" || strContains ml "change" || strContains ml "extend" then
    .modifyRental
  else if strContains ml "detail" || strContains ml "info" then .details
  else .defaultList

/-- Exception path of CarRentalAgent.process_request: the `except` returns a
failure whose message and error are both the exception text. -/
def car_exc_outcome (sess : Option String) : AgentProcOutcome :=
  ⟨⟨false, noneGetError, none, [], some noneGetError⟩, sess, [], []⟩

/-- CarRentalAgent.process_request (car-rental-agent/agent.py lines 195 to 274). -/
def car_process_request (host : HostBehavior) (sess : Option String)
    (message : String) (context : Option (List (String × Json))) : AgentProcOutcome :=
  let ml := pyLower message
  match car_route ml with
  | .locations =>
    let out := call_tool "Invalid JSON: " host sess "list_locations" []
    ⟨⟨true, "Available rental locations", some [("locations", out.value)],
      ["list_locations"], none⟩, out.session, ["list_locations"], out.trace⟩
  | .categories =>
    let out := call_tool "Invalid JSON: " host sess "get_vehicle_categories" []
    ⟨⟨true, "Vehicle categories", some [("categories", out.value)],
      ["get_vehicle_categories"], none⟩, out.session, ["get_vehicle_categories"], out.trace⟩
  | .searchVehicles =>
    match context with
    | none => car_exc_outcome sess
    | some ctx =>
      let pickup_location_code :=
        dictGet ctx "pickup_location_code" (dictGet ctx "location_code" (Json.str "LAX"))
      let pickup_date := dictGet ctx "pickup_date" (Json.str "2026-02-15")
      let dropoff_date := dictGet ctx "dropoff_date" (dictGet ctx "return_date" (Json.str "2026-02-17"))
      let category := dictGet ctx "category" Json.null
      let args := [("pickup_location_code", pickup_location_code),
                   ("pickup_date", pickup_date), ("dropoff_date", dropoff_date)] ++
        (if jsonTruthy category then [("category", category)] else [])
      let out := call_tool "Invalid JSON: " host sess "search_vehicles" args
      ⟨⟨true, "Available vehicles", some [("vehicles", out.value)],
        ["search_vehicles"], none⟩, out.session, ["search_vehicles"], out.trace⟩
  | .bookVehicle =>
    match context with
    | none => car_exc_outcome sess
    | some ctx =>
      let vehicle_id := dictGet ctx "vehicle_id" Json.null
      if !jsonTruthy vehicle_id then
        ⟨⟨false, "Please provide vehicle_id", none, [], some "missing_vehicle_id"⟩, sess, [], []⟩
      else
        let out := call_tool "Invalid JSON: " host sess "book_vehicle"
          [("vehicle_id", vehicle_id),
           ("pickup_date", dictGet ctx "pickup_date" (Json.str "2026-02-15")),
           ("return_date", dictGet ctx "return_date" (Json.str "2026-02-17")),
           ("driver_name", dictGet ctx "driver_name" (Json.str "Guest"))]
        ⟨⟨true, "Vehicle booked", some [("booking", out.value)],
          ["book_vehicle"], none⟩, out.session, ["book_vehicle"], out.trace⟩
  | .cancelRental =>
    match context with
    | none => car_exc_outcome sess
    | some ctx =>
      let rental_id := dictGet ctx "rental_id" Json.null
      if !jsonTruthy rental_id then
        ⟨⟨false, "Please provide rental_id", none, [], some "missing_rental_id"⟩, sess, [], []⟩
      else
        let out := call_tool "Invalid JSON: " host sess "cancel_rental"
          [("rental_id", rental_id)]
        ⟨⟨true, "Rental cancelled", some [("result", out.value)],
          ["cancel_rental"], none⟩, out.session, ["cancel_rental"], out.trace⟩
  | .modifyRental =>
    match context with
    | none => car_exc_outcome sess
    | some ctx =>
      let rental_id := dictGet ctx "rental_id" Json.null
      let new_return_date := dictGet ctx "new_return_date" Json.null
      if !jsonTruthy rental_id || !jsonTruthy new_return_date then
        ⟨⟨false, "Please provide rental_id and new_return_date", none, [],
          some "missing_parameters"⟩, sess, [], []⟩
      else
        let out := call_tool "Invalid JSON: " host sess "modify_rental"
          [("rental_id", rental_id), ("new_return_date", new_return_date)]
        ⟨⟨true, "Rental modified", some [("result", out.value)],
          ["modify_rental"], none⟩, out.session, ["modify_rental"], out.trace⟩
  | .details =>
    match context with
    | none => car_exc_outcome sess
    | some ctx =>
      let vehicle_id := dictGet ctx "vehicle_id" Json.null
      if !jsonTruthy vehicle_id then
        ⟨⟨false, "Please provide vehicle_id", none, [], some "missing_vehicle_id"⟩, sess, [], []⟩
      else
        let out := call_tool "Invalid JSON: " host sess "get_vehicle_details"
          [("vehicle_id", vehicle_id)]
        ⟨⟨true, "Vehicle details", some [("vehicle", out.value)],
          ["get_vehicle_details"], none⟩, out.session, ["get_vehicle_details"], out.trace⟩
  | .defaultList =>
    let out := call_tool "Invalid JSON: " host sess "list_locations" []
    ⟨⟨true, "Available rental locations", some [("locations", out.value)],
      ["list_locations"], none⟩, out.session, ["list_locations"], out.trace⟩

/-! ## Router/Supervisor (agents-old/travel-supervisor/supervisor.py)

The reasoning model appears three times in `SupervisorAgent` — the structured
routing decision in `route_and_execute`, the continuation decision in
`_check_continuation`, and the free-text synthesis — and the specialist
`process` calls are remote; all four are oracle fields of `SupervisorEnv`,
functions of exactly the data the source interpolates into each prompt. -/

inductive SpecialistKind where
  | airline
  | hotel
  | car_rental
deriving DecidableEq

def specialistName : SpecialistKind → String
  | .airline => "airline"
  | .hotel => "hotel"
  | .car_rental => "car_rental"

/-- The `agent` field of a RouteDecision: a `Literal["airline", "hotel",
"car_rental", "complete"]`, so these four values are exhaustive and the
source's final `else` branch is unreachable. -/
inductive RouteTarget where
  | specialist (a : SpecialistKind)
  | complete
deriving DecidableEq

structure RouteDecision where
  agent : RouteTarget
  task : String
  reasoning : String

structure ConversationTurn where
  agent : String
  task : String
  result : String

structure SupervisorEnv where
  route : String → List ConversationTurn → RouteDecision
  continuation : String → List ConversationTurn → RouteDecision
  synth : String → List ConversationTurn → String
  process : SpecialistKind → String → String

/-- SupervisorAgent._synthesize_response (supervisor.py lines 224 to 242):
with an empty history a fixed message, otherwise the reasoning model composes
the summary. -/
def synthesize_response (env : SupervisorEnv) (request : String)
    (history : List ConversationTurn) : String :=
  if history.isEmpty then
    "I wasn\x27t able to complete your request. Please try rephrasing or breaking it down into simpler steps."
  else env.synth request history

/-- Outcome of one `route_and_execute` run: the final response, the final
conversation history, and the specialist calls performed (kind and task, in
order). -/
structure RouteOutcome where
  response : String
  history : List ConversationTurn
  calls : List (SpecialistKind × String)

/-- SupervisorAgent.route_and_execute together with the inlined
`_check_continuation` (supervisor.py lines 70 to 222).  The iteration counter
is the history length; each specialist call appends one turn; the
continuation check either synthesizes (limit reached or `complete`) or
re-enters `route_and_execute` with the grown history. -/
def route_and_execute (env : SupervisorEnv) (user_request : String)
    (history : List ConversationTurn) (max_iterations : Nat) : RouteOutcome :=
  if history.length ≥ max_iterations then
    ⟨synthesize_response env user_request history, history, []⟩
  else
    match env.route user_request history with
    | ⟨RouteTarget.complete, _, _⟩ =>
      ⟨synthesize_response env user_request history, history, []⟩
    | ⟨RouteTarget.specialist a, task, _⟩ =>
      let result := env.process a task
      let history2 := history ++ [⟨specialistName a, task, result⟩]
      if history2.length ≥ max_iterations then
        ⟨synthesize_response env user_request history2, history2, [(a, task)]⟩
      else
        match env.continuation user_request history2 with
        | ⟨RouteTarget.complete, _, _⟩ =>
          ⟨synthesize_response env user_request history2, history2, [(a, task)]⟩
        | ⟨RouteTarget.specialist _, _, _⟩ =>
          let tail := route_and_execute env user_request history2 max_iterations
          ⟨tail.response, tail.history, (a, task) :: tail.calls⟩
termination_by max_iterations - history.length
decreasing_by
  simp only [List.length_append, List.length_cons, List.length_nil] at *
  omega

/-! ## Supervisor HTTP service (supervisor-service/supervisor_service.py) -/

structure ProcessResponse where
  result : String
  iterations : Nat
deriving DecidableEq

/-- The `_simple_route` keyword router (supervisor_service.py lines 120 to
132). -/
def simple_route (query : String) (history : List ConversationTurn) : String :=
  let query_lower := pyLower query
  if ["flight", "airport", "airline", "fly"].any (fun w => strContains query_lower w) then
    "airline"
  else if ["hotel", "room", "accommodation"].any (fun w => strContains query_lower w) then
    "hotel"
  else if ["car", "rental", "vehicle", "drive"].any (fun w => strContains query_lower w) then
    "car_rental"
  else if history.isEmpty then "airline"
  else "complete"

/-- Synthesis after the `process_query` loop (lines 106 to 117): the last
gathered result, or the fixed message when no turn was gathered. -/
def process_query_synth (history : List ConversationTurn) : ProcessResponse :=
  match history.getLast? with
  | none => ⟨"Unable to process request", 0⟩
  | some t => ⟨t.result, history.length⟩

/-- The `for iteration in range(max_iterations)` loop of `process_query`
(lines 77 to 104); `callAgent` is the remote `_call_agent` (its exception
becomes the early error return).  `fuel` counts the remaining range and
`iteration` the Python loop variable. -/
def process_query_go (callAgent : String → String → Except String String) (query : String) :
    Nat → Nat → List ConversationTurn → ProcessResponse
  | 0, _, history => process_query_synth history
  | fuel + 1, iteration, history =>
    let agent_type := simple_route query history
    if agent_type == "complete" then process_query_synth history
    else
      match callAgent agent_type query with
      | .error e =>
        ⟨"Error calling " ++ agent_type ++ " agent: " ++ e, iteration + 1⟩
      | .ok result =>
        let history2 := history ++ [⟨agent_type, query, result⟩]
        if pyLen result > 10 then process_query_synth history2
        else process_query_go callAgent query fuel (iteration + 1) history2

/-- The `/process` handler `process_query` (supervisor_service.py lines 71 to
117). -/
def process_query (callAgent : String → String → Except String String)
    (query : String) (max_iterations : Nat) : ProcessResponse :=
  process_query_go callAgent query max_iterations 0 []

/-! ## Intent classification -/

/-- IntentType (travel-planner/travel_planner.py lines 70 to 77). -/
inductive IntentType where
  | create_trip
  | add_to_trip
  | modify_booking
  | cancel_booking
  | query_itinerary
  | search
  | general
deriving DecidableEq

/-- DomainType (travel_planner.py lines 79 to 84). -/
inductive DomainType where
  | airline
  | hotel
  | car_rental
  | multi
  | noDomain
deriving DecidableEq

/-- UserContext (travel_planner.py lines 113 to 118). -/
structure UserContext where
  user : Option (List (String × Json))
  active_trip : Option (List (String × Json))
  all_trips : List (List (String × Json))
  itinerary : List (List (String × Json))
  recent_messages : List (List (String × Json))

/-- Intent (travel_planner.py lines 107 to 111).  The source also stores the
float literal `confidence=0.8` in every result; no consumer in the claims
reads it and it is omitted from the embedding. -/
structure Intent where
  type : IntentType
  domain : DomainType
  entities : List (String × Json)

/-- Python `context and context.active_trip` (a `None` context, a `None`
active_trip, and an empty active-trip dict are all falsy). -/
def hasActiveTrip (context : Option UserContext) : Bool :=
  match context with
  | none => false
  | some c =>
    match c.active_trip with
    | none => false
    | some d => !d.isEmpty

/-- classify_intent (travel_planner.py lines 379 to 446): keyword matching on
the lowercased message, plus the active-trip bit of the optional context. -/
def classify_intent (message : String) (context : Option UserContext) : Intent :=
  let ml := pyLower message
  let domain :=
    if ["flight", "fly", "airport", "airline", "plane"].any (fun w => strContains ml w) then
      DomainType.airline
    else if ["hotel", "room", "stay", "accommodation", "lodge"].any (fun w => strContains ml w) then
      DomainType.hotel
    else if ["car", "vehicle", "rent", "rental", "drive"].any (fun w => strContains ml w) then
      DomainType.car_rental
    else if ["trip", "travel", "vacation", "journey"].any (fun w => strContains ml w) then
      DomainType.multi
    else DomainType.noDomain
  let intent_type :=
    if ["my booking", "my flight", "my hotel", "my reservation", "my trip", "my itinerary",
        "what time", "when is", "show me", "what do i have"].any (fun w => strContains ml w) then
      IntentType.query_itinerary
    else if ["cancel", "delete", "remove"].any (fun w => strContains ml w) then
      IntentType.cancel_booking
    else if ["change", "modify", "update", "reschedule"].any (fun w => strContains ml w) then
      IntentType.modify_booking
    else if ["plan a trip", "planning a trip", "new trip", "going to", "want to go",
        "need to go", "traveling to", "travel to"].any (fun w => strContains ml w) then
      IntentType.create_trip
    else if hasActiveTrip context &&
        (["add", "book", "reserve", "get me", "find me", "i need", "i want"].any
          (fun w => strContains ml w)) then
      IntentType.add_to_trip
    else if ["search", "find", "look for", "show", "list", "available", "options"].any
        (fun w => strContains ml w) then
      IntentType.search
    else if ["book", "reserve", "purchase"].any (fun w => strContains ml w) then
      if hasActiveTrip context then IntentType.add_to_trip else IntentType.create_trip
    else IntentType.general
  ⟨intent_type, domain, []⟩

/-- The mutable state of a TravelSupervisor instance
(supervisor/supervisor.py lines 79 to 110): identity, the HTTP client and LLM
handles (reachability summarized as booleans), and the agent registry with the
tool lists discovered at startup. -/
structure TravelSupervisorState where
  supervisor_id : String
  supervisor_name : String
  http_client_ready : Bool
  llm_available : Bool
  agents : List (String × List String)

/-- TravelSupervisor._classify_intent_keywords (supervisor/supervisor.py
lines 179 to 198); `self` is the explicit instance state, which the method
body never reads. -/
def classify_intent_keywords (self : TravelSupervisorState) (message : String) : String :=
  let ml := pyLower message
  if ["flight", "airport", "airline", "fly", "plane", "boarding"].any
      (fun kw => strContains ml kw) then "airline"
  else if ["hotel", "room", "stay", "accommodation", "lodge", "inn", "resort"].any
      (fun kw => strContains ml kw) then "hotel"
  else if ["car", "vehicle", "rental", "rent", "drive", "pickup"].any
      (fun kw => strContains ml kw) then "car-rental"
  else "unknown"

/-! ## Concrete environments used to witness the theorems -/

/-- A tool host whose every `tools/call` answer is a fixed 200 response with
the given body (the `initialize` outcome is never consulted when the session
is already established). -/
def fixedBodyHost (body : String) : HostBehavior :=
  ⟨.exn "unused", fun _ => .ok ⟨200, [], body⟩⟩

/-- A host that refuses every connection. -/
def hostDown : HostBehavior :=
  ⟨.exn "connection refused", fun _ => .exn "connection refused"⟩

/-- A host that issues token `sess-2` on `initialize`, accepts calls carrying
that token with a 200 result envelope, and answers 400 to any other session
header. -/
def demoRecoveryHost : HostBehavior :=
  ⟨.ok ⟨200, [("mcp-session-id", "sess-2")], ""⟩,
   fun hdr =>
     if hdr == some "sess-2" then .ok ⟨200, [], "\x7b\"result\": 42\x7d"⟩
     else .ok ⟨400, [], ""⟩⟩

/-- A host that issues token `tok-1` on `initialize` and answers every call
with a 200 result envelope (it never answers 400). -/
def demoInitHost : HostBehavior :=
  ⟨.ok ⟨200, [("mcp-session-id", "tok-1")], ""⟩,
   fun _ => .ok ⟨200, [], "\x7b\"result\": 1\x7d"⟩⟩

/-- A supervisor environment whose routing and continuation decisions never
answer `complete`. -/
def demoRouterEnv : SupervisorEnv :=
  ⟨fun _ _ => ⟨.specialist .airline, "find flights", "demo"⟩,
   fun _ _ => ⟨.specialist .hotel, "find hotels", "demo"⟩,
   fun _ h => "summary of " ++ toString h.length ++ " turns",
   fun _ _ => "no results"⟩

/-! ## General lemmas -/
theorem mem_of_getLastSome {α : Type} {l : List α} {a : α} (h : l.getLast? = some a) : a ∈ l := by
  induction l with
  | nil => simp at h
  | cons x xs ih =>
    rcases xs with _ | ⟨y, ys⟩
    · simp [List.getLast?] at h
      simp [h]
    · rw [List.getLast?_cons_cons] at h
      exact List.mem_cons_of_mem _ (ih h)

theorem getKey_any (fs : List (String × Json)) (k : String) (r : Json)
    (h : Json.getKey? (Json.obj fs) k = some r) :
    fs.any (fun p => p.1 == k) = true := by
  simp only [Json.getKey?] at h
  rcases hl : (fs.filter (fun p => p.1 == k)).getLast? with _ | p
  · rw [hl] at h
    simp at h
  · have hp : p ∈ fs.filter (fun p => p.1 == k) := mem_of_getLastSome hl
    have hm := List.mem_filter.mp hp
    exact List.any_eq_true.mpr ⟨p, hm.1, hm.2⟩

theorem sseScan_first_data (im : String) (lines : List String) :
    ∀ (l : String) (fs : List (String × Json)) (r : Json),
      lines.find? (fun u => pyStartsWith u "data:" && !(pyStrip (pyDrop u 5)).data.isEmpty) = some l →
      jsonParse? (pyStrip (pyDrop l 5)) = some (Json.obj fs) →
      Json.getKey? (Json.obj fs) "result" = some r →
      sseScan im lines = .ok r := by
  induction lines with
  | nil =>
    intro l fs r hf
    simp at hf
  | cons head tail ih =>
    intro l fs r hf hp hk
    by_cases hd : (pyStartsWith head "data:" && !(pyStrip (pyDrop head 5)).data.isEmpty) = true
    · simp only [List.find?] at hf
      rw [hd] at hf
      simp only [cond_true] at hf
      have hl : head = l := by simpa using hf
      subst hl
      have hd2 := hd
      simp only [Bool.and_eq_true, Bool.not_eq_true'] at hd2
      obtain ⟨h1, h2⟩ := hd2
      rw [sseScan, if_pos h1]
      simp only [h2]
      rw [if_neg (by simp [h2]), hp]
      have hany := getKey_any fs "result" r hk
      simp only [pyIn, hany]
      simp only [pySubscript, hk]
    · have hdf : (pyStartsWith head "data:" && !(pyStrip (pyDrop head 5)).data.isEmpty) = false :=
        Bool.eq_false_iff.mpr hd
      simp only [List.find?] at hf
      rw [hdf] at hf
      simp only [cond_false] at hf
      have hrec := ih l fs r hf hp hk
      rw [sseScan]
      by_cases h1 : pyStartsWith head "data:" = true
      · have h2 : (pyStrip (pyDrop head 5)).data.isEmpty = true := by
          have hb := hdf
          rw [h1] at hb
          simpa using hb
        rw [if_pos h1]
        simp only [h2, if_pos rfl]
        exact hrec
      · rw [if_neg h1]
        exact hrec

theorem decode200_sse_first (im text : String) (l : String) (fs : List (String × Json)) (r : Json)
    (hstart : pyStartsWith text "event:" = true)
    (hf : (pySplitNl text).find?
        (fun u => pyStartsWith u "data:" && !(pyStrip (pyDrop u 5)).data.isEmpty) = some l)
    (hp : jsonParse? (pyStrip (pyDrop l 5)) = some (Json.obj fs))
    (hk : Json.getKey? (Json.obj fs) "result" = some r) :
    decode200 im text = .ok r := by
  unfold decode200
  rw [if_pos hstart]
  exact sseScan_first_data im (pySplitNl text) l fs r hf hp hk

theorem decode200_plain (im text : String) (fs : List (String × Json)) (r : Json)
    (hstart : pyStartsWith text "event:" = false)
    (hp : jsonParse? text = some (Json.obj fs))
    (hk : Json.getKey? (Json.obj fs) "result" = some r) :
    decode200 im text = .ok r := by
  unfold decode200
  rw [if_neg (by simp [hstart]), hp]
  simp only [pyDictGet, hk]

theorem call_tool_trace_names (im : String) (host : HostBehavior) (sess : Option String)
    (tn : String) (targs : List (String × Json)) :
    ∀ n a h, McpRequest.toolsCall n a h ∈ (call_tool im host sess tn targs).trace → n = tn := by
  intro n a h hm
  simp only [call_tool, init_mcp_session] at hm
  rcases hi : host.initResp with iresp | imsg <;>
    by_cases hst : sessionTruthy sess <;>
    simp_all

theorem isolation_calls_air (host : HostBehavior) (llm : Option LlmFn) (sess : Option String)
    (message : String) (context : Option (List (String × Json))) :
    ∀ t ∈ (airline_process_request host llm sess message context).calls,
      t ∈ AIRLINE_TOOLS.map (fun d => d.name) := by
  intro t ht
  unfold airline_process_request at ht
  rcases context with _ | ctx <;>
    rcases llm with _ | f <;>
    simp only [airline_exc_outcome, airline_fallthrough] at ht <;>
    split at ht <;>
    (try split at ht) <;>
    simp_all [AIRLINE_TOOLS]

theorem isolation_trace_air (host : HostBehavior) (llm : Option LlmFn) (sess : Option String)
    (message : String) (context : Option (List (String × Json))) :
    ∀ n a h, McpRequest.toolsCall n a h ∈ (airline_process_request host llm sess message context).trace →
      n ∈ AIRLINE_TOOLS.map (fun d => d.name) := by
  intro n a h hm
  unfold airline_process_request at hm
  rcases context with _ | ctx <;>
    rcases llm with _ | f <;>
    simp only [airline_exc_outcome, airline_fallthrough] at hm <;>
    split at hm <;>
    (try split at hm) <;>
    (try dsimp only at hm) <;>
    first
      | (have hn := call_tool_trace_names _ host sess _ _ n a h hm
         subst hn
         decide)
      | simp_all

theorem isolation_calls_car (host : HostBehavior) (sess : Option String)
    (message : String) (context : Option (List (String × Json))) :
    ∀ t ∈ (car_process_request host sess message context).calls,
      t ∈ CAR_RENTAL_TOOLS.map (fun d => d.name) := by
  intro t ht
  unfold car_process_request at ht
  rcases context with _ | ctx <;>
    simp only [car_exc_outcome] at ht <;>
    split at ht <;>
    (try split at ht) <;>
    simp_all [CAR_RENTAL_TOOLS]

theorem isolation_trace_car (host : HostBehavior) (sess : Option String)
    (message : String) (context : Option (List (String × Json))) :
    ∀ n a h, McpRequest.toolsCall n a h ∈ (car_process_request host sess message context).trace →
      n ∈ CAR_RENTAL_TOOLS.map (fun d => d.name) := by
  intro n a h hm
  unfold car_process_request at hm
  rcases context with _ | ctx <;>
    simp only [car_exc_outcome] at hm <;>
    split at hm <;>
    (try split at hm) <;>
    (try dsimp only at hm) <;>
    first
      | (have hn := call_tool_trace_names _ host sess _ _ n a h hm
         subst hn
         decide)
      | simp_all

theorem failure_error_air (host : HostBehavior) (llm : Option LlmFn) (sess : Option String)
    (message : String) (context : Option (List (String × Json))) :
    (airline_process_request host llm sess message context).response.success = false →
      ∃ e, (airline_process_request host llm sess message context).response.error = some e ∧
        e ≠ "" := by
  unfold airline_process_request
  rcases context with _ | ctx <;>
    rcases llm with _ | f <;>
    simp only [airline_exc_outcome, airline_fallthrough] <;>
    split <;>
    (try split) <;>
    first
      | (intro h; exact ⟨_, rfl, by decide⟩)
      | (intro h; simp at h)

theorem failure_error_car (host : HostBehavior) (sess : Option String)
    (message : String) (context : Option (List (String × Json))) :
    (car_process_request host sess message context).response.success = false →
      ∃ e, (car_process_request host sess message context).response.error = some e ∧ e ≠ "" := by
  unfold car_process_request
  rcases context with _ | ctx <;>
    simp only [car_exc_outcome] <;>
    split <;>
    (try split) <;>
    first
      | (intro h; exact ⟨_, rfl, by decide⟩)
      | (intro h; simp at h)


theorem route_and_execute_never_complete (env : SupervisorEnv) (u : String) (N : Nat)
    (hroute : ∀ r h, (env.route r h).agent ≠ RouteTarget.complete)
    (hcont : ∀ r h, (env.continuation r h).agent ≠ RouteTarget.complete) :
    ∀ (k : Nat) (hist : List ConversationTurn), N - hist.length ≤ k → hist.length ≤ N →
      (route_and_execute env u hist N).history.length = N ∧
      (route_and_execute env u hist N).calls.length = N - hist.length ∧
      (route_and_execute env u hist N).response =
        synthesize_response env u (route_and_execute env u hist N).history := by
  intro k
  induction k with
  | zero =>
    intro hist hk hle
    have hlen : hist.length = N := by omega
    rw [route_and_execute, if_pos (by omega : hist.length ≥ N)]
    exact ⟨hlen, by simp [hlen], rfl⟩
  | succ k ih =>
    intro hist hk hle
    by_cases hge : hist.length ≥ N
    · have hlen : hist.length = N := by omega
      rw [route_and_execute, if_pos hge]
      exact ⟨hlen, by simp [hlen], rfl⟩
    · rw [route_and_execute, if_neg hge]
      rcases hr : env.route u hist with ⟨ag, task, reas⟩
      rcases ag with a | hcomp
      · simp only [hr]
        by_cases hif : (hist ++ [(⟨specialistName a, task, env.process a task⟩ : ConversationTurn)]).length ≥ N
        · rw [if_pos hif]
          have hlen2 : (hist ++ [(⟨specialistName a, task, env.process a task⟩ : ConversationTurn)]).length = N := by
            simp only [List.length_append, List.length_cons, List.length_nil] at *
            omega
          refine ⟨hlen2, ?_, rfl⟩
          simp only [List.length_cons, List.length_nil]
          simp only [List.length_append, List.length_cons, List.length_nil] at hif
          omega
        · rw [if_neg hif]
          rcases hc : env.continuation u (hist ++ [(⟨specialistName a, task, env.process a task⟩ : ConversationTurn)]) with ⟨ag2, task2, reas2⟩
          rcases ag2 with a2 | hcomp2
          · simp only [hc]
            have hlt : (hist ++ [(⟨specialistName a, task, env.process a task⟩ : ConversationTurn)]).length ≤ N := by
              omega
            have hk2 : N - (hist ++ [(⟨specialistName a, task, env.process a task⟩ : ConversationTurn)]).length ≤ k := by
              simp only [List.length_append, List.length_cons, List.length_nil] at *
              omega
            obtain ⟨ih1, ih2, ih3⟩ := ih _ hk2 hlt
            refine ⟨ih1, ?_, ih3⟩
            simp only [List.length_cons, ih2]
            simp only [List.length_append, List.length_cons, List.length_nil] at *
            omega
          · exfalso
            exact hcont u _ (by rw [hc])
      · exfalso
        exact hroute u hist (by rw [hr])

/-! ## Claim theorems -/

/-- C1 (amended): every tool name that `process_request` ever passes to
`call_tool` belongs to the agent's static catalog (AIRLINE_TOOLS for the
airline agent, CAR_RENTAL_TOOLS for the car-rental agent), and every
`tools/call` request sent to a tool host carries such a name — so no tool-call
request for an out-of-catalog tool is ever sent.  (The original claim's
further assertion, that a task requesting an out-of-catalog tool is rejected
as a policy-denial failure, is refuted by `claim_C1_counterexample`: such a
task falls through to the reasoning model or to a capability-summary response
with `success = true`.) -/
theorem claim_C1_isolation (host : HostBehavior) (llm : Option LlmFn) (sess : Option String)
    (message : String) (context : Option (List (String × Json))) :
    (∀ t ∈ (airline_process_request host llm sess message context).calls,
        t ∈ AIRLINE_TOOLS.map (fun d => d.name)) ∧
    (∀ n a h,
        McpRequest.toolsCall n a h ∈ (airline_process_request host llm sess message context).trace →
        n ∈ AIRLINE_TOOLS.map (fun d => d.name)) ∧
    (∀ t ∈ (car_process_request host sess message context).calls,
        t ∈ CAR_RENTAL_TOOLS.map (fun d => d.name)) ∧
    (∀ n a h,
        McpRequest.toolsCall n a h ∈ (car_process_request host sess message context).trace →
        n ∈ CAR_RENTAL_TOOLS.map (fun d => d.name)) :=
  ⟨isolation_calls_air host llm sess message context,
   isolation_trace_air host llm sess message context,
   isolation_calls_car host sess message context,
   isolation_trace_car host sess message context⟩

/-- C1 counterexample: a task asking for an out-of-catalog tool ("use the
hotel tool", with no reasoning model configured) is answered with
`success = true` (the capability-summary fallback), not with a policy-denial
failure — though indeed no tool-call request is sent. -/
theorem claim_C1_counterexample :
    (airline_process_request hostDown none none "use the hotel tool" (some [])).response.success
        = true ∧
    (airline_process_request hostDown none none "use the hotel tool" (some [])).calls = [] ∧
    (airline_process_request hostDown none none "use the hotel tool" (some [])).trace = [] :=
  ⟨rfl, rfl, rfl⟩

/-- C1 witness: concrete requests whose tool calls are members of the
respective catalogs. -/
theorem claim_C1_isolation_witness :
    "list_airports" ∈
        (airline_process_request hostDown none none "list available airports" (some [])).calls ∧
    "list_airports" ∈ AIRLINE_TOOLS.map (fun d => d.name) ∧
    "cancel_rental" ∈
        (car_process_request hostDown none "cancel my rental"
          (some [("rental_id", Json.str "r-1")])).calls ∧
    "cancel_rental" ∈ CAR_RENTAL_TOOLS.map (fun d => d.name) :=
  ⟨by decide,
   (claim_C1_isolation hostDown none none "list available airports" (some [])).1
     "list_airports" (by decide),
   by decide,
   (claim_C1_isolation hostDown none none "cancel my rental"
       (some [("rental_id", Json.str "r-1")])).2.2.1 "cancel_rental" (by decide)⟩

/-- C2 (amended): when the tool host answers an established session's
`tools/call` with the 400 expiry signal, that same `call_tool` invocation
does NOT succeed — it returns the `Tool call failed: 400` error value after a
single round trip and clears the stored session id; it is the NEXT
`call_tool` invocation that re-runs initialization exactly once (one extra
round trip) before issuing the call, which then succeeds when the host
accepts the fresh token.  Re-initialization is bounded to one attempt per
call. -/
theorem claim_C2_session_recovery (host : HostBehavior) (name : String)
    (args : List (String × Json)) (sess : Option String) (r400 : HttpResponse)
    (istat : Nat) (ihdrs : List (String × String)) (ibody : String) (tok : String)
    (r200 : HttpResponse) (v : Json)
    (hs : sessionTruthy sess = true)
    (h400 : host.callResp sess = .ok r400)
    (hst : r400.status = 400)
    (hinit : host.initResp = .ok ⟨istat, ihdrs, ibody⟩)
    (htok : headerGet ihdrs "mcp-session-id" = some tok)
    (htokt : sessionTruthy (some tok) = true)
    (h200 : host.callResp (some tok) = .ok r200)
    (hst2 : r200.status = 200)
    (hdec : decode200 "Invalid JSON response: " r200.body = .ok v) :
    call_tool "Invalid JSON response: " host sess name args =
      ⟨Json.obj [("error", Json.str "Tool call failed: 400")], none,
        [McpRequest.toolsCall name args sess]⟩ ∧
    call_tool "Invalid JSON response: " host none name args =
      ⟨v, some tok, [McpRequest.initRpc, McpRequest.toolsCall name args (some tok)]⟩ := by
  constructor
  · unfold call_tool
    simp only [hs, if_true, h400, hst]
    norm_num
    rfl
  · unfold call_tool
    simp only [show sessionTruthy none = false from rfl, Bool.false_eq_true, if_false,
      init_mcp_session, hinit, htok, htokt, eq_self_iff_true, if_true, h200, hst2, hdec]
    rfl

/-- C2 counterexample: with an established session `sess-1` and a host
answering 400, the very call that receives the expiry signal returns the
error value — it is not retried within the same invocation (its trace is the
single `tools/call` round trip, with no re-initialization), contradicting
"that same logical call succeeds after exactly one re-initialization". -/
theorem claim_C2_counterexample :
    call_tool "Invalid JSON response: "
        ⟨.exn "unused", fun _ => .ok ⟨400, [], "session expired"⟩⟩
        (some "sess-1") "list_airports" [] =
      ⟨Json.obj [("error", Json.str "Tool call failed: 400")], none,
        [McpRequest.toolsCall "list_airports" [] (some "sess-1")]⟩ :=
  rfl

/-- C2 witness: the recovery host refuses the stale `sess-1` token with 400
and accepts the fresh `sess-2` token; the failing call and the recovering
next call behave as `claim_C2_session_recovery` states. -/
theorem claim_C2_session_recovery_witness :
    demoRecoveryHost.callResp (some "sess-1") = .ok ⟨400, [], ""⟩ ∧
    demoRecoveryHost.callResp (some "sess-2") = .ok ⟨200, [], "\x7b\"result\": 42\x7d"⟩ ∧
    (call_tool "Invalid JSON response: " demoRecoveryHost (some "sess-1") "get_booking" [] =
        ⟨Json.obj [("error", Json.str "Tool call failed: 400")], none,
          [McpRequest.toolsCall "get_booking" [] (some "sess-1")]⟩ ∧
      call_tool "Invalid JSON response: " demoRecoveryHost none "get_booking" [] =
        ⟨Json.num 42, some "sess-2",
          [McpRequest.initRpc, McpRequest.toolsCall "get_booking" [] (some "sess-2")]⟩) :=
  ⟨rfl, rfl,
   claim_C2_session_recovery demoRecoveryHost "get_booking" [] (some "sess-1")
     ⟨400, [], ""⟩ 200 [("mcp-session-id", "sess-2")] "" "sess-2"
     ⟨200, [], "\x7b\"result\": 42\x7d"⟩ (Json.num 42)
     rfl rfl rfl rfl rfl rfl rfl rfl rfl⟩

/-- C3: when neither the routing decision nor the continuation decision ever
answers `complete`, `route_and_execute` starting from an empty history with
`max_iterations = N` performs exactly N specialist calls, appends exactly N
conversation-history entries, and returns the synthesis of the final history
(never more than N calls). -/
theorem claim_C3_iteration_bound (env : SupervisorEnv) (u : String) (N : Nat)
    (hroute : ∀ r h, (env.route r h).agent ≠ RouteTarget.complete)
    (hcont : ∀ r h, (env.continuation r h).agent ≠ RouteTarget.complete) :
    (route_and_execute env u [] N).calls.length = N ∧
    (route_and_execute env u [] N).history.length = N ∧
    (route_and_execute env u [] N).response =
      synthesize_response env u (route_and_execute env u [] N).history := by
  obtain ⟨h1, h2, h3⟩ :=
    route_and_execute_never_complete env u N hroute hcont N [] (by simp) (by simp)
  exact ⟨by simpa using h2, h1, h3⟩

/-- C3 witness: a concrete never-complete environment run with
`max_iterations = 5` performs exactly 5 specialist calls. -/
theorem claim_C3_iteration_bound_witness :
    (∀ r h, (demoRouterEnv.route r h).agent ≠ RouteTarget.complete) ∧
    (∀ r h, (demoRouterEnv.continuation r h).agent ≠ RouteTarget.complete) ∧
    (route_and_execute demoRouterEnv "plan me a full trip" [] 5).calls.length = 5 :=
  ⟨fun _ _ hq => RouteTarget.noConfusion hq, fun _ _ hq => RouteTarget.noConfusion hq,
   (claim_C3_iteration_bound demoRouterEnv "plan me a full trip" 5
     (fun _ _ hq => RouteTarget.noConfusion hq) (fun _ _ hq => RouteTarget.noConfusion hq)).1⟩

/-- C4: a 200 event-stream body `event: message\ndata: {"result": 42}\n\n`
decodes to the success payload 42; a 200 event-stream body with no `data:`
line yields the documented "No data in SSE response" error; a `data:` line
holding malformed JSON yields the distinct invalid-JSON error. -/
theorem claim_C4_sse_roundtrip :
    (call_tool "Invalid JSON response: "
        (fixedBodyHost "event: message\ndata: \x7b\"result\": 42\x7d\n\n")
        (some "sess-1") "list_airports" []).value = Json.num 42 ∧
    (call_tool "Invalid JSON response: " (fixedBodyHost "event: message\n\n")
        (some "sess-1") "list_airports" []).value =
      Json.obj [("error", Json.str "No data in SSE response")] ∧
    (call_tool "Invalid JSON response: " (fixedBodyHost "event: message\ndata: \x7boops\n\n")
        (some "sess-1") "list_airports" []).value =
      Json.obj [("error", Json.str "Invalid JSON response: \x7boops")] ∧
    Json.obj [("error", Json.str "No data in SSE response")] ≠
      Json.obj [("error", Json.str "Invalid JSON response: \x7boops")] :=
  ⟨rfl, rfl, rfl, by simp⟩

/-- C5 (amended): the decoder parses the FIRST `data:` line whose payload is
non-empty after stripping — not the last — and returns its `result` field;
a body that does not begin with the event-stream marker is parsed whole and
`result` extracted from the envelope. -/
theorem claim_C5_stream_decoding :
    (∀ (im text l : String) (fs : List (String × Json)) (r : Json),
        pyStartsWith text "event:" = true →
        (pySplitNl text).find?
            (fun u => pyStartsWith u "data:" && !(pyStrip (pyDrop u 5)).data.isEmpty) = some l →
        jsonParse? (pyStrip (pyDrop l 5)) = some (Json.obj fs) →
        Json.getKey? (Json.obj fs) "result" = some r →
        decode200 im text = .ok r) ∧
    (∀ (im text : String) (fs : List (String × Json)) (r : Json),
        pyStartsWith text "event:" = false →
        jsonParse? text = some (Json.obj fs) →
        Json.getKey? (Json.obj fs) "result" = some r →
        decode200 im text = .ok r) :=
  ⟨fun im text l fs r h1 h2 h3 h4 => decode200_sse_first im text l fs r h1 h2 h3 h4,
   fun im text fs r h1 h2 h3 => decode200_plain im text fs r h1 h2 h3⟩

/-- C5 counterexample: on a stream with two `data:` lines the decoder returns
the payload of the first one (1), while the specification's last-line reading
gives the payload of the final one (2). -/
theorem claim_C5_counterexample :
    decode200 "Invalid JSON response: "
        "event: message\ndata: \x7b\"result\": 1\x7d\ndata: \x7b\"result\": 2\x7d\n\n" =
      .ok (Json.num 1) ∧
    specLastLineDecode
        "event: message\ndata: \x7b\"result\": 1\x7d\ndata: \x7b\"result\": 2\x7d\n\n" =
      some (Json.num 2) ∧
    Json.num 1 ≠ Json.num 2 :=
  ⟨rfl, rfl, by simp⟩

/-- C5 witness: the amended decoding theorem applied to a concrete
single-data-line stream and a concrete plain JSON body. -/
theorem claim_C5_stream_decoding_witness :
    pyStartsWith "event: message\ndata: \x7b\"result\": 42\x7d\n\n" "event:" = true ∧
    decode200 "Invalid JSON response: " "event: message\ndata: \x7b\"result\": 42\x7d\n\n" =
      .ok (Json.num 42) ∧
    pyStartsWith "\x7b\"result\": 7\x7d" "event:" = false ∧
    decode200 "Invalid JSON: " "\x7b\"result\": 7\x7d" = .ok (Json.num 7) :=
  ⟨rfl,
   claim_C5_stream_decoding.1 "Invalid JSON response: "
     "event: message\ndata: \x7b\"result\": 42\x7d\n\n" "data: \x7b\"result\": 42\x7d"
     [("result", Json.num 42)] (Json.num 42) rfl rfl rfl rfl,
   rfl,
   claim_C5_stream_decoding.2 "Invalid JSON: " "\x7b\"result\": 7\x7d"
     [("result", Json.num 7)] (Json.num 7) rfl rfl rfl⟩

/-- C6: every specialist response with `success = false` carries a non-empty
error, for every request, session state, reasoning-model configuration and
host behavior — covering the airline `/invoke` handler (whose
exception-to-failure conversion is unreachable over the total embedded
`process_request`) and the car-rental `process_request`, including the
requests whose `None` context raises inside the handler and is converted to a
failure response. -/
theorem claim_C6_failure_error :
    (∀ (host : HostBehavior) (llm : Option LlmFn) (sess : Option String)
        (message : String) (context : Option (List (String × Json))),
        (airline_invoke host llm sess message context).response.success = false →
        ∃ e, (airline_invoke host llm sess message context).response.error = some e ∧ e ≠ "") ∧
    (∀ (host : HostBehavior) (sess : Option String)
        (message : String) (context : Option (List (String × Json))),
        (car_process_request host sess message context).response.success = false →
        ∃ e, (car_process_request host sess message context).response.error = some e ∧ e ≠ "") :=
  ⟨fun host llm sess message context => failure_error_air host llm sess message context,
   fun host sess message context => failure_error_car host sess message context⟩

/-- C6 witness: a cancel request without a confirmation code (airline) or a
rental id (car-rental) fails, and the failure carries a non-empty error. -/
theorem claim_C6_failure_error_witness :
    (airline_invoke hostDown none none "cancel" (some [])).response.success = false ∧
    (∃ e, (airline_invoke hostDown none none "cancel" (some [])).response.error = some e ∧
      e ≠ "") ∧
    (car_process_request hostDown none "cancel" (some [])).response.success = false ∧
    (∃ e, (car_process_request hostDown none "cancel" (some [])).response.error = some e ∧
      e ≠ "") :=
  ⟨rfl, claim_C6_failure_error.1 hostDown none none "cancel" (some []) rfl,
   rfl, claim_C6_failure_error.2 hostDown none "cancel" (some []) rfl⟩

/-- C7: reaching synthesis with zero accumulated turns yields a fixed
could-not-help message, independent of every oracle (so produced without
consulting the reasoning model): the old supervisor's `_synthesize_response`
returns its constant for an empty history under every environment, and the
supervisor service's `process_query` returns "Unable to process request" when
the loop gathers no turn. -/
theorem claim_C7_empty_history_synthesis :
    (∀ (env : SupervisorEnv) (request : String),
        synthesize_response env request [] =
          "I wasn\x27t able to complete your request. Please try rephrasing or breaking it down into simpler steps.") ∧
    (∀ (callAgent : String → String → Except String String) (query : String),
        process_query callAgent query 0 = ⟨"Unable to process request", 0⟩) :=
  ⟨fun _ _ => rfl, fun _ _ => rfl⟩

/-- C8: intent classification is a pure function of its inputs — two calls of
`classify_intent` with identical message and context yield the identical
intent (domain and type), and `_classify_intent_keywords` is independent of
the supervisor instance state it is invoked on. -/
theorem claim_C8_idempotent_classification :
    (∀ (m1 m2 : String) (c1 c2 : Option UserContext), m1 = m2 → c1 = c2 →
        classify_intent m1 c1 = classify_intent m2 c2) ∧
    (∀ (s1 s2 : TravelSupervisorState) (m : String),
        classify_intent_keywords s1 m = classify_intent_keywords s2 m) :=
  ⟨fun m1 m2 c1 c2 hm hc => by rw [hm, hc], fun _ _ _ => rfl⟩

/-- C8 witness: two identical classification calls agree on a concrete
message, and the keyword classifier agrees across two different supervisor
states. -/
theorem claim_C8_idempotent_classification_witness :
    classify_intent "Book a flight to LAX" none = classify_intent "Book a flight to LAX" none ∧
    classify_intent_keywords ⟨"supervisor-agent", "Travel Supervisor", true, true, []⟩
        "Find me a hotel" =
      classify_intent_keywords ⟨"other-id", "Other", false, false,
        [("airline", ["list_airports"])]⟩ "Find me a hotel" :=
  ⟨claim_C8_idempotent_classification.1 "Book a flight to LAX" "Book a flight to LAX"
     none none rfl rfl,
   claim_C8_idempotent_classification.2 ⟨"supervisor-agent", "Travel Supervisor", true, true, []⟩
     ⟨"other-id", "Other", false, false, [("airline", ["list_airports"])]⟩ "Find me a hotel"⟩

/-- C9: the request "Cancel my rental" with a context lacking the rental_id
key makes the car-rental `process_request` return `success = false` with
error `missing_rental_id`, an empty `tools_called` list, no tool name passed
to `call_tool`, and no request sent to the tool host. -/
theorem claim_C9_missing_rental_guard (host : HostBehavior) (sess : Option String)
    (ctx : List (String × Json))
    (h : ctx.filter (fun p => p.1 == "rental_id") = []) :
    car_process_request host sess "Cancel my rental" (some ctx) =
      ⟨⟨false, "Please provide rental_id", none, [], some "missing_rental_id"⟩, sess, [], []⟩ := by
  have hd : dictGet ctx "rental_id" Json.null = Json.null := by
    unfold dictGet
    rw [h]
    rfl
  have hb : car_route (pyLower "Cancel my rental") = CarBranch.cancelRental := rfl
  simp only [car_process_request, hb, hd]
  rfl

/-- C9 witness: the guard theorem at the empty context. -/
theorem claim_C9_missing_rental_guard_witness :
    ([] : List (String × Json)).filter (fun p => p.1 == "rental_id") = [] ∧
    car_process_request hostDown none "Cancel my rental" (some []) =
      ⟨⟨false, "Please provide rental_id", none, [], some "missing_rental_id"⟩, none, [], []⟩ :=
  ⟨rfl, claim_C9_missing_rental_guard hostDown none [] rfl⟩

/-- C10 (amended): for a `call_tool` invocation that starts with an
established (truthy) session id, the stored session id is changed only by the
400 expiry answer, which clears it; a 200 answer, any other non-2xx status,
and a transport exception all leave it exactly as it was.  (Without the
established-session premise the claim fails: `claim_C10_counterexample` shows
`call_tool` re-initializing a missing session and storing the fresh token
even though the host never answers 400.) -/
theorem claim_C10_session_frame (im : String) (host : HostBehavior) (sess : Option String)
    (name : String) (args : List (String × Json))
    (hs : sessionTruthy sess = true) :
    (call_tool im host sess name args).session =
      (match host.callResp sess with
       | .ok resp => if resp.status == 400 then none else sess
       | .exn _ => sess) := by
  unfold call_tool
  simp only [hs, if_true]
  rcases hr : host.callResp sess with resp | msg
  · by_cases h200 : resp.status == 200
    · have h2 : resp.status = 200 := by simpa using h200
      simp only [h200, if_true, h2]
      rcases decode200 im resp.body <;> simp
    · simp only [h200, if_false]
      simp [Bool.false_eq_true]
  · simp

/-- C10 counterexample: starting with no session, `call_tool` re-initializes
and stores the token issued by the host even though every answer of this host
has status 200 (never 400) — so the field is modified on a path the claim
says leaves it untouched. -/
theorem claim_C10_counterexample :
    (call_tool "Invalid JSON response: " demoInitHost none "list_airports" []).session =
      some "tok-1" ∧
    some "tok-1" ≠ (none : Option String) :=
  ⟨rfl, by simp⟩

/-- C10 witness: a transport exception on an established session leaves the
session id untouched. -/
theorem claim_C10_session_frame_witness :
    sessionTruthy (some "sess-9") = true ∧
    (call_tool "Invalid JSON response: " hostDown (some "sess-9") "list_airports" []).session =
      (match hostDown.callResp (some "sess-9") with
       | .ok resp => if resp.status == 400 then none else some "sess-9"
       | .exn _ => some "sess-9") :=
  ⟨rfl,
   claim_C10_session_frame "Invalid JSON response: " hostDown (some "sess-9")
     "list_airports" [] rfl⟩
